import Mathlib

/-!
Shallow embedding of the channel health-management core of new-api:
`service/channel.go` (error classification and the disable/enable controller),
`service/webhook.go` (webhook formatting, DingTalk URL signing and delivery),
and `types/channel_error.go` (the `ChannelError` value object).

Go integers are modelled as `Int`, Go strings as `String`, Go byte slices that
only ever hold JSON text as `String`, nullable pointers as `Option`, and the
external collaborators (store, SSRF validator, HTTP client, HMAC, JSON
marshalling, the Aho-Corasick keyword search) as explicit function parameters.
Side effects (store calls, notifications, network I/O) are reified as effect
traces returned alongside the result.
-/

/-- Embedding of Go `strings.Contains s pat`: `pat` occurs as a contiguous
substring of `s`. -/
def strContains (s pat : String) : Bool :=
  decide (pat.data <:+: s.data)

/-- Decimal digit `d` (with `d < 10`) rendered as its ASCII character,
used to model Go `fmt.Sprintf` with the `%d` verb. -/
def digitChar (d : Nat) : Char :=
  Char.ofNat (48 + d)

/-- Decimal rendering of a natural number, the model of `%d` on non-negative
values: most-significant digit first, `"0"` for zero. -/
def natDec (n : Nat) : String :=
  if n = 0 then "0" else ⟨((Nat.digits 10 n).map digitChar).reverse⟩

/-- Decimal rendering of a Go `int` (the model of `fmt.Sprintf("%d", i)`):
a leading `'-'` for negative values, plain digits otherwise. -/
def intDec (i : Int) : String :=
  if i < 0 then "-" ++ natDec i.natAbs else natDec i.natAbs

/-- Modelled from the spec: the channel-status constant `common.ChannelStatusEnabled`
(the `common` package is outside the sources; only the distinctness of the
status values matters to this core). -/
def ChannelStatusEnabled : Int := 1

/-- Modelled from the spec: a manually disabled status, opaque to this core. -/
def ChannelStatusManuallyDisabled : Int := 2

/-- Modelled from the spec: the channel-status constant
`common.ChannelStatusAutoDisabled`. -/
def ChannelStatusAutoDisabled : Int := 3

/-- Modelled from the spec: the fixed channel-update notify-type marker
`dto.NotifyTypeChannelUpdate` (a constant string from the external `dto`
package). -/
def NotifyTypeChannelUpdate : String := "channel_update"

/-- Modelled from the spec: the `constant.ChannelTypeGemini` channel-type
constant designating the Gemini provider family. -/
def ChannelTypeGemini : Int := 25

/-- Global feature switches and settings consumed by the classifier
(`common.AutomaticDisableChannelEnabled`, `common.AutomaticEnableChannelEnabled`,
`operation_setting.AutomaticDisableKeywords`), passed explicitly. -/
structure GlobalConfig where
  automaticDisableChannelEnabled : Bool
  automaticEnableChannelEnabled : Bool
  automaticDisableKeywords : List String

/-- Modelled from the spec: the external `types.NewAPIError`, carrying an
HTTP-like status code, the rendered message (`err.Error()`), the normalized
provider-style `code` and `type` (`err.ToOpenAIError()`), and the two caller
flags tested by `types.IsChannelError` and `types.IsSkipRetryError`. -/
structure NewAPIError where
  statusCode : Int
  errMessage : String
  oaiCode : String
  oaiType : String
  isChannelErrorFlag : Bool
  isSkipRetryErrorFlag : Bool

/-- Modelled from the spec: `types.IsChannelError` reads the channel-level
(unconditionally disable-worthy) flag. -/
def IsChannelError (e : NewAPIError) : Bool :=
  e.isChannelErrorFlag

/-- Modelled from the spec: `types.IsSkipRetryError` reads the skip-retry
(never disable-worthy) flag. -/
def IsSkipRetryError (e : NewAPIError) : Bool :=
  e.isSkipRetryErrorFlag

/-- Normalized error codes of the `switch oaiErr.Code` table in
`ShouldDisableChannel`. -/
def disableErrorCodes : List String :=
  ["invalid_api_key", "account_deactivated", "billing_not_active",
   "pre_consume_token_quota_failed", "Arrearage"]

/-- Normalized error types of the `switch oaiErr.Type` table in
`ShouldDisableChannel`. -/
def disableErrorTypes : List String :=
  ["insufficient_quota", "insufficient_user_quota", "authentication_error",
   "permission_error", "forbidden"]

/-- Modelled from the spec: the external `AcSearch` collaborator as used at its
call site, a case-insensitive substring match of any configured keyword inside
the (already lowercased) message. -/
def AcSearch (message : String) (keywords : List String) : Bool :=
  keywords.any (fun k => strContains message k.toLower)

/-- Embedding of `ShouldDisableChannel` (service/channel.go): the ordered,
short-circuit rule table deciding whether a channel error warrants automatic
disable. -/
def ShouldDisableChannel (cfg : GlobalConfig) (channelType : Int)
    (err : Option NewAPIError) : Bool :=
  if !cfg.automaticDisableChannelEnabled then
    false
  else
    match err with
    | none => false
    | some e =>
      if IsChannelError e then true
      else if IsSkipRetryError e then false
      else if e.statusCode = 401 then true
      else if e.statusCode = 403 ∧ channelType = ChannelTypeGemini then true
      else if disableErrorCodes.contains e.oaiCode then true
      else if disableErrorTypes.contains e.oaiType then true
      else AcSearch e.errMessage.toLower cfg.automaticDisableKeywords

/-- Embedding of `ShouldEnableChannel` (service/channel.go). -/
def ShouldEnableChannel (cfg : GlobalConfig) (newAPIError : Option NewAPIError)
    (status : Int) : Bool :=
  if !cfg.automaticEnableChannelEnabled then false
  else if newAPIError.isSome then false
  else if status ≠ ChannelStatusAutoDisabled then false
  else true

/-- Embedding of `types.ChannelError` (types/channel_error.go). -/
structure ChannelError where
  channelId : Int
  channelType : Int
  channelName : String
  isMultiKey : Bool
  autoBan : Bool
  usingKey : String
  tag : String

/-- Observable side effects of the channel health controller: system log lines,
calls to the external store `model.UpdateChannelStatus`, and hand-offs to the
external notification router `NotifyRootUser`. -/
inductive ChannelEffect where
  | sysLog (message : String) : ChannelEffect
  | updateChannelStatus (channelId : Int) (usingKey : String) (status : Int)
      (reason : String) : ChannelEffect
  | notifyRootUser (notifyType : String) (subject : String) (content : String) :
      ChannelEffect

/-- Predicate picking out store calls in a `ChannelEffect` trace. -/
def isUpdateEffect : ChannelEffect → Bool
  | ChannelEffect.updateChannelStatus _ _ _ _ => true
  | _ => false

/-- Predicate picking out notification hand-offs in a `ChannelEffect` trace. -/
def isNotifyEffect : ChannelEffect → Bool
  | ChannelEffect.notifyRootUser _ _ _ => true
  | _ => false

/-- Embedding of `formatNotifyType` (service/channel.go):
`fmt.Sprintf("%s_%d_%d", dto.NotifyTypeChannelUpdate, channelId, status)`. -/
def formatNotifyType (channelId : Int) (status : Int) : String :=
  NotifyTypeChannelUpdate ++ "_" ++ intDec channelId ++ "_" ++ intDec status

/-- Body of the disable alert notification built in `DisableChannel`. -/
def disableNotifyContent (channelName : String) (channelId : Int)
    (now reason : String) : String :=
  "**【通道告警】- New API 通道监控 🚨**\n" ++
    "**📡 通道名称:** " ++ channelName ++ "\n" ++
    "**🆔 通道ID:** #" ++ intDec channelId ++ "\n" ++
    "**🔄 状态变更: 启用 → 自动禁用**\n" ++
    "**🕘 禁用时间:** " ++ now ++ "\n" ++
    "**⚠️ 告警等级: 严重**\n" ++
    "**📝 失败原因:** " ++ reason ++ "\n" ++
    "&nbsp;&nbsp;&nbsp;&nbsp;&nbsp;—— 🧑‍🤝‍🧑 LaiYe科技 -- 运维团队 ——"

/-- Embedding of `DisableChannel` (service/channel.go) as an effect trace.
The store is the external `model.UpdateChannelStatus` collaborator, `now` the
formatted current time. -/
def DisableChannel (store : Int → String → Int → String → Bool) (now : String)
    (channelError : ChannelError) (reason : String) : List ChannelEffect :=
  let intro := ChannelEffect.sysLog
    ("通道「" ++ channelError.channelName ++ "」（#" ++
      intDec channelError.channelId ++ "）发生错误，准备禁用，原因：" ++ reason)
  if !channelError.autoBan then
    [intro, ChannelEffect.sysLog
      ("通道「" ++ channelError.channelName ++ "」（#" ++
        intDec channelError.channelId ++ "）未启用自动禁用功能，跳过禁用操作")]
  else
    let success := store channelError.channelId channelError.usingKey
      ChannelStatusAutoDisabled reason
    let callEff := ChannelEffect.updateChannelStatus channelError.channelId
      channelError.usingKey ChannelStatusAutoDisabled reason
    if success then
      [intro, callEff,
        ChannelEffect.notifyRootUser
          (formatNotifyType channelError.channelId ChannelStatusAutoDisabled)
          ("【通道告警】- " ++ channelError.channelName ++ " (#" ++
            intDec channelError.channelId ++ ")")
          (disableNotifyContent channelError.channelName channelError.channelId
            now reason)]
    else
      [intro, callEff]

/-- Body of the recovery notification built in `EnableChannel`. -/
def enableNotifyContent (channelName : String) (channelId : Int)
    (now : String) : String :=
  "**【通道恢复】- New API 通道监控 ✅**\n" ++
    "**📡 通道名称:** " ++ channelName ++ "\n" ++
    "**🆔 通道ID:** #" ++ intDec channelId ++ "\n" ++
    "**🔄 状态变更: 自动禁用 → 启用**\n" ++
    "**🕘 恢复时间:** " ++ now ++ "\n" ++
    "**✨ 状态: 通道已恢复正常**\n" ++
    "&nbsp;&nbsp;&nbsp;&nbsp;&nbsp;—— 🧑‍🤝‍🧑 LaiYe科技 -- 运维团队 ——"

/-- Embedding of `EnableChannel` (service/channel.go) as an effect trace. -/
def EnableChannel (store : Int → String → Int → String → Bool) (now : String)
    (channelId : Int) (usingKey : String) (channelName : String) :
    List ChannelEffect :=
  let success := store channelId usingKey ChannelStatusEnabled ""
  let callEff := ChannelEffect.updateChannelStatus channelId usingKey
    ChannelStatusEnabled ""
  if success then
    [callEff,
      ChannelEffect.notifyRootUser (formatNotifyType channelId ChannelStatusEnabled)
        ("【通道恢复】- " ++ channelName ++ " (#" ++ intDec channelId ++ ")")
        (enableNotifyContent channelName channelId now)]
  else
    [callEff]

/-- Embedding of `dto.Notify` as consumed by `SendWebhookNotify`; the
substitution values of Go type `[]interface\x7b\x7d` are a type parameter. -/
structure Notify (α : Type) where
  type : String
  title : String
  content : String
  values : List α

/-- Embedding of the generic `WebhookPayload` schema (service/webhook.go). -/
structure WebhookPayload (α : Type) where
  type : String
  title : String
  content : String
  values : List α
  timestamp : Int

/-- Embedding of `DingTalkMarkdownPayload` (service/webhook.go), with the
nested `Markdown` struct flattened into `title` and `text`. -/
structure DingTalkMarkdownPayload where
  msgType : String
  title : String
  text : String

/-- Embedding of the worker-relay request descriptor `WorkerRequest` as filled
in by `SendWebhookNotify`. -/
structure WorkerRequest where
  url : String
  key : String
  method : String
  headers : List (String × String)
  body : String

/-- Embedding of the direct-mode `http.Request` as built by
`http.NewRequest(http.MethodPost, finalWebhookURL, payload)` plus the headers
set on it. -/
structure HttpRequest where
  method : String
  url : String
  headers : List (String × String)
  body : String

/-- Lookup of a header value by exact key, the observation used to compare
header maps. -/
def lookupHeader (k : String) (headers : List (String × String)) : Option String :=
  (headers.find? (fun p => p.1 == k)).map (fun p => p.2)

/-- Embedding of the placeholder-substitution loop at the top of
`SendWebhookNotify`: `for _, value := range data.Values` rebinds `content` to
`fmt.Sprintf(content, value)`, i.e. a left fold of the single-value `Sprintf`
collaborator over the values. -/
def applyValues {α : Type} (sprintfOne : String → α → String)
    (content : String) (values : List α) : String :=
  values.foldl sprintfOne content

/-- Embedding of `isDingTalkWebhook` (service/webhook.go): a plain
`strings.Contains` test of the two DingTalk markers against the whole URL
string. -/
def isDingTalkWebhook (webhookURL : String) : Bool :=
  strContains webhookURL "oapi.dingtalk.com" || strContains webhookURL "api.dingtalk.com"

/-- Embedding of `generateDingTalkSign` (service/webhook.go): HMAC-SHA256 of
`"{timestamp}\n{secret}"` keyed by the secret, base64-encoded; the crypto
primitive is the external collaborator `hmacSha256Base64 key message`. -/
def generateDingTalkSign (hmacSha256Base64 : String → String → String)
    (secret : String) (timestamp : Int) : String :=
  hmacSha256Base64 secret (intDec timestamp ++ "\n" ++ secret)

/-- Embedding of the DingTalk URL-signing block of `SendWebhookNotify`
(lines 105-117): with a non-empty secret, append `timestamp` and `sign` query
parameters, joined with `&` when the URL already contains `?` and with `?`
otherwise; with an empty secret the URL is unchanged. -/
def dingTalkFinalURL (hmacSha256Base64 : String → String → String)
    (queryEscape : String → String) (webhookURL : String) (secret : String)
    (timestampMs : Int) : String :=
  if secret = "" then
    webhookURL
  else
    let sign := generateDingTalkSign hmacSha256Base64 secret timestampMs
    if strContains webhookURL "?" then
      webhookURL ++ "&timestamp=" ++ intDec timestampMs ++ "&sign=" ++ queryEscape sign
    else
      webhookURL ++ "?timestamp=" ++ intDec timestampMs ++ "&sign=" ++ queryEscape sign

/-- Embedding of the DingTalk markdown payload construction of
`SendWebhookNotify` (lines 82-99): normalize `"\r\n"` to `"\n"`, force line
breaks with two trailing spaces, and prepend a `###` heading unless the title
is empty or the notify type starts with the channel-update marker. -/
def buildDingTalkPayload {α : Type} (data : Notify α) (content : String) :
    DingTalkMarkdownPayload :=
  let dingTalkContent := (content.replace "\r\n" "\n").replace "\n" "  \n"
  let includeTitle :=
    if data.type.startsWith NotifyTypeChannelUpdate then false else data.title ≠ ""
  { msgType := "markdown"
    title := data.title
    text :=
      if includeTitle then "### " ++ data.title ++ "\n\n" ++ dingTalkContent
      else dingTalkContent }

/-- External collaborators and ambient settings of `SendWebhookNotify`,
passed explicitly: the worker switch and key (`system_setting`), clocks, the
single-value `fmt.Sprintf`, JSON marshalling (total here: the marshalled
structs cannot fail to serialize), the HMAC primitives, `url.QueryEscape`,
the SSRF validator (`common.ValidateURLWithFetchSetting`, returning an error
message on rejection), and the two HTTP exchanges (returning a status code or
a transport error). -/
structure WebhookEnv (α : Type) where
  enableWorker : Bool
  workerValidKey : String
  nowUnix : Int
  nowUnixMilli : Int
  sprintfOne : String → α → String
  marshalDingTalk : DingTalkMarkdownPayload → String
  marshalGeneric : WebhookPayload α → String
  hmacSha256Base64 : String → String → String
  hmacSha256Hex : String → String → String
  queryEscape : String → String
  validateURL : String → Option String
  workerResponse : WorkerRequest → Except String Int
  httpResponse : HttpRequest → Except String Int

/-- Destination URL actually used by `SendWebhookNotify`: DingTalk URLs go
through the signing block, all other URLs are passed through untouched. -/
def finalWebhookURL {α : Type} (env : WebhookEnv α) (webhookURL secret : String) :
    String :=
  if isDingTalkWebhook webhookURL then
    dingTalkFinalURL env.hmacSha256Base64 env.queryEscape webhookURL secret
      env.nowUnixMilli
  else
    webhookURL

/-- Payload bytes marshalled by `SendWebhookNotify`: the DingTalk markdown
schema for DingTalk URLs, the generic `WebhookPayload` schema otherwise. -/
def webhookPayloadBytes {α : Type} (env : WebhookEnv α) (webhookURL : String)
    (data : Notify α) : String :=
  let content := applyValues env.sprintfOne data.content data.values
  if isDingTalkWebhook webhookURL then
    env.marshalDingTalk (buildDingTalkPayload data content)
  else
    env.marshalGeneric
      { type := data.type
        title := data.title
        content := content
        values := data.values
        timestamp := env.nowUnix }

/-- Headers of the worker-relay request: JSON content type always, plus the
`X-Webhook-Signature` and `Authorization` headers exactly when a secret is
configured and the destination is not a DingTalk webhook. -/
def workerHeaders {α : Type} (env : WebhookEnv α)
    (webhookURL secret payloadBytes : String) : List (String × String) :=
  if secret ≠ "" && !(isDingTalkWebhook webhookURL) then
    [("Content-Type", "application/json"),
     ("X-Webhook-Signature", env.hmacSha256Hex secret payloadBytes),
     ("Authorization", "Bearer " ++ secret)]
  else
    [("Content-Type", "application/json")]

/-- Headers of the direct-mode request: JSON content type always, plus the
`X-Webhook-Signature` header exactly when a secret is configured and the
destination is not a DingTalk webhook. -/
def directHeaders {α : Type} (env : WebhookEnv α)
    (webhookURL secret payloadBytes : String) : List (String × String) :=
  if secret ≠ "" && !(isDingTalkWebhook webhookURL) then
    [("Content-Type", "application/json"),
     ("X-Webhook-Signature", env.hmacSha256Hex secret payloadBytes)]
  else
    [("Content-Type", "application/json")]

/-- Worker-relay request descriptor built by `SendWebhookNotify`. -/
def mkWorkerRequest {α : Type} (env : WebhookEnv α) (webhookURL secret : String)
    (finalURL payloadBytes : String) : WorkerRequest :=
  { url := finalURL
    key := env.workerValidKey
    method := "POST"
    headers := workerHeaders env webhookURL secret payloadBytes
    body := payloadBytes }

/-- Direct-mode HTTP request built by `SendWebhookNotify`. -/
def mkDirectRequest {α : Type} (env : WebhookEnv α) (webhookURL secret : String)
    (finalURL payloadBytes : String) : HttpRequest :=
  { method := "POST"
    url := finalURL
    headers := directHeaders env webhookURL secret payloadBytes
    body := payloadBytes }

/-- Observable I/O-relevant steps of `SendWebhookNotify`: the SSRF validation
call, a worker-relay exchange, and a direct HTTP exchange. -/
inductive SendEffect where
  | validateURL (url : String) : SendEffect
  | workerCall (req : WorkerRequest) : SendEffect
  | httpCall (req : HttpRequest) : SendEffect

/-- Predicate picking out network exchanges (worker or direct) in a
`SendEffect` trace. -/
def isNetworkEffect : SendEffect → Bool
  | SendEffect.workerCall _ => true
  | SendEffect.httpCall _ => true
  | SendEffect.validateURL _ => false

/-- Check that an effect only ever addresses the given URL: validations are
ignored, worker and direct requests must target exactly `url`. -/
def effectTargets (url : String) : SendEffect → Bool
  | SendEffect.validateURL _ => true
  | SendEffect.workerCall req => req.url == url
  | SendEffect.httpCall req => req.url == url

/-- Embedding of `SendWebhookNotify` (service/webhook.go): placeholder
substitution, schema selection, DingTalk URL signing, then delivery through
the worker relay (when the worker switch is on) or directly after SSRF
validation; the result pairs the returned error with the trace of I/O steps. -/
def SendWebhookNotify {α : Type} (env : WebhookEnv α) (webhookURL secret : String)
    (data : Notify α) : Except String Unit × List SendEffect :=
  let payloadBytes := webhookPayloadBytes env webhookURL data
  let finalURL := finalWebhookURL env webhookURL secret
  if env.enableWorker then
    let req := mkWorkerRequest env webhookURL secret finalURL payloadBytes
    match env.workerResponse req with
    | Except.error e =>
      (Except.error ("failed to send webhook request through worker: " ++ e),
        [SendEffect.workerCall req])
    | Except.ok status =>
      if status < 200 ∨ status ≥ 300 then
        (Except.error ("webhook request failed with status code: " ++ intDec status),
          [SendEffect.workerCall req])
      else
        (Except.ok (), [SendEffect.workerCall req])
  else
    match env.validateURL finalURL with
    | some e =>
      (Except.error ("request reject: " ++ e), [SendEffect.validateURL finalURL])
    | none =>
      let req := mkDirectRequest env webhookURL secret finalURL payloadBytes
      match env.httpResponse req with
      | Except.error e =>
        (Except.error ("failed to send webhook request: " ++ e),
          [SendEffect.validateURL finalURL, SendEffect.httpCall req])
      | Except.ok status =>
        if status < 200 ∨ status ≥ 300 then
          (Except.error ("webhook request failed with status code: " ++ intDec status),
            [SendEffect.validateURL finalURL, SendEffect.httpCall req])
        else
          (Except.ok (), [SendEffect.validateURL finalURL, SendEffect.httpCall req])

/-- Characters following the first `"://"` marker, or `[]` when there is
none; helper for the spec-side host extraction. -/
def afterScheme : List Char → List Char
  | ':' :: '/' :: '/' :: rest => rest
  | _ :: rest => afterScheme rest
  | [] => []

/-- Host component of a URL, following the claim's words for host-based
chat-bot detection: the text after `"://"` up to the first `'/'`, `'?'` or
`'#'`. This definition follows the spec side of the comparison, not the
source. -/
def hostOf (url : String) : String :=
  ⟨(afterScheme url.data).takeWhile (fun c => c ≠ '/' && c ≠ '?' && c ≠ '#')⟩

/-- Host-based chat-bot detection as the claim words it (spec-side definition,
to be compared with the source's `isDingTalkWebhook`): the URL's host
component matches a known DingTalk webhook domain. -/
def isChatBotByHostSpec (url : String) : Bool :=
  hostOf url == "oapi.dingtalk.com" || hostOf url == "api.dingtalk.com"

/-- Sample configuration with both automatic switches on and no disable
keywords. -/
def sampleCfgOn : GlobalConfig :=
  { automaticDisableChannelEnabled := true
    automaticEnableChannelEnabled := true
    automaticDisableKeywords := [] }

/-- Sample error flagged skip-retry only, with an otherwise disable-worthy
shape (status 401, listed code and type, matching message). -/
def sampleSkipRetryErr : NewAPIError :=
  { statusCode := 401
    errMessage := "invalid_api_key quota"
    oaiCode := "invalid_api_key"
    oaiType := "insufficient_quota"
    isChannelErrorFlag := false
    isSkipRetryErrorFlag := true }

/-- Sample error flagged both channel-level and skip-retry. -/
def sampleBothFlagsErr : NewAPIError :=
  { statusCode := 500
    errMessage := "boom"
    oaiCode := ""
    oaiType := ""
    isChannelErrorFlag := true
    isSkipRetryErrorFlag := true }

/-- Sample 403 error matching no other rule. -/
def sampleForbiddenErr : NewAPIError :=
  { statusCode := 403
    errMessage := "upstream said no"
    oaiCode := ""
    oaiType := ""
    isChannelErrorFlag := false
    isSkipRetryErrorFlag := false }

/-- Sample store collaborator that always reports a successful transition. -/
def sampleStore : Int → String → Int → String → Bool :=
  fun _ _ _ _ => true

/-- Sample channel with automatic disable turned off. -/
def sampleNoBanChannel : ChannelError :=
  { channelId := 7
    channelType := 1
    channelName := "backup"
    isMultiKey := false
    autoBan := false
    usingKey := "sk-1"
    tag := "" }

/-- Sample notification with no substitution values. -/
def sampleNotifyA : Notify Unit :=
  { type := "quota_exceed", title := "t", content := "c", values := [] }

/-- Sample notification used by the frame-condition witness. -/
def sampleNotifyB : Notify Unit :=
  { type := "quota_exceed", title := "t", content := "c", values := [] }

/-- Sample webhook environment whose SSRF validator rejects every URL, in
direct (non-worker) mode. -/
def sampleRejectEnv : WebhookEnv Unit :=
  { enableWorker := false
    workerValidKey := ""
    nowUnix := 0
    nowUnixMilli := 0
    sprintfOne := fun s _ => s
    marshalDingTalk := fun _ => "json"
    marshalGeneric := fun _ => "json"
    hmacSha256Base64 := fun _ _ => "MAC"
    hmacSha256Hex := fun _ _ => "abcd"
    queryEscape := fun s => s
    validateURL := fun _ => some "blocked"
    workerResponse := fun _ => Except.error "unreachable"
    httpResponse := fun _ => Except.ok 200 }

/-- Sample webhook environment that accepts every URL and answers 200. -/
def sampleFrameEnv : WebhookEnv Unit :=
  { enableWorker := false
    workerValidKey := "wk"
    nowUnix := 0
    nowUnixMilli := 0
    sprintfOne := fun s _ => s
    marshalDingTalk := fun _ => "json"
    marshalGeneric := fun _ => "json"
    hmacSha256Base64 := fun _ _ => "MAC"
    hmacSha256Hex := fun _ _ => "abcd"
    queryEscape := fun s => s
    validateURL := fun _ => none
    workerResponse := fun _ => Except.ok 200
    httpResponse := fun _ => Except.ok 200 }

/-- Sample HMAC collaborator used by the DingTalk signing witness. -/
def sampleHmacBase64 : String → String → String :=
  fun key message => "B64[" ++ key ++ "|" ++ message ++ "]"

/-- Sample URL-escaping collaborator used by the DingTalk signing witness. -/
def sampleQueryEscape : String → String :=
  fun s => s

/-- Injectivity of the digit-to-character map on decimal digits. -/
theorem digitChar_inj {a b : Nat} (ha : a < 10) (hb : b < 10)
    (h : digitChar a = digitChar b) : a = b := by
  interval_cases a <;> interval_cases b <;> revert h <;> decide

/-- Decimal digit characters are never an underscore. -/
theorem digitChar_ne_underscore {d : Nat} (h : d < 10) : digitChar d ≠ '_' := by
  interval_cases d <;> decide

/-- Decimal digit characters are never a dash. -/
theorem digitChar_ne_dash {d : Nat} (h : d < 10) : digitChar d ≠ '-' := by
  interval_cases d <;> decide

/-- Every character of `natDec n` is a decimal digit character. -/
theorem natDec_data_mem {n : Nat} {c : Char} (h : c ∈ (natDec n).data) :
    ∃ d, d < 10 ∧ c = digitChar d := by
  unfold natDec at h
  split at h
  · have h0 : ("0" : String).data = ['0'] := rfl
    rw [h0] at h
    simp at h
    exact ⟨0, by norm_num, by rw [h]; rfl⟩
  · simp only [List.mem_reverse, List.mem_map] at h
    obtain ⟨d, hd, hc⟩ := h
    exact ⟨d, Nat.digits_lt_base (by norm_num) hd, hc.symm⟩

/-- The underscore never occurs in `natDec n`. -/
theorem underscore_not_mem_natDec (n : Nat) : '_' ∉ (natDec n).data := by
  intro h
  obtain ⟨d, hd, hc⟩ := natDec_data_mem h
  exact digitChar_ne_underscore hd hc.symm

/-- The dash never occurs in `natDec n`. -/
theorem dash_not_mem_natDec (n : Nat) : '-' ∉ (natDec n).data := by
  intro h
  obtain ⟨d, hd, hc⟩ := natDec_data_mem h
  exact digitChar_ne_dash hd hc.symm

/-- Mapping `digitChar` over lists of decimal digits is injective. -/
theorem map_digitChar_inj : ∀ {l1 l2 : List Nat},
    (∀ d ∈ l1, d < 10) → (∀ d ∈ l2, d < 10) →
    l1.map digitChar = l2.map digitChar → l1 = l2
  | [], [], _, _, _ => rfl
  | [], _ :: _, _, _, h => by simp at h
  | _ :: _, [], _, _, h => by simp at h
  | a :: t1, b :: t2, h1, h2, h => by
    simp only [List.map_cons, List.cons.injEq] at h
    have hab : a = b :=
      digitChar_inj (h1 a (by simp)) (h2 b (by simp)) h.1
    have ht : t1 = t2 :=
      map_digitChar_inj (fun d hd => h1 d (by simp [hd]))
        (fun d hd => h2 d (by simp [hd])) h.2
    rw [hab, ht]

/-- Injectivity of the decimal rendering of natural numbers. -/
theorem natDec_inj {m n : Nat} (h : natDec m = natDec n) : m = n := by
  unfold natDec at h
  split_ifs at h with h1 h2 h2
  · rw [h1, h2]
  · exfalso
    have hd := congrArg String.data h
    have h0 : ("0" : String).data = ['0'] := rfl
    rw [h0] at hd
    have hmap : (Nat.digits 10 n).map digitChar = ['0'] := by
      have := hd.symm
      rw [List.reverse_eq_iff] at this
      simpa using this
    rcases hdig : Nat.digits 10 n with _ | ⟨d, t⟩
    · rw [hdig] at hmap
      simp at hmap
    · rw [hdig] at hmap
      simp only [List.map_cons, List.cons.injEq] at hmap
      have ht : t = [] := by
        have := hmap.2
        cases t with
        | nil => rfl
        | cons x xs => simp at this
      have hdlt : d < 10 :=
        Nat.digits_lt_base (by norm_num) (by rw [hdig]; simp)
      have hd0 : d = 0 := by
        have : digitChar d = digitChar 0 := by rw [hmap.1]; rfl
        exact digitChar_inj hdlt (by norm_num) this
      have := Nat.ofDigits_digits 10 n
      rw [hdig, ht, hd0] at this
      simp [Nat.ofDigits] at this
      exact h2 this.symm
  · exfalso
    have hd := congrArg String.data h
    have h0 : ("0" : String).data = ['0'] := rfl
    rw [h0] at hd
    have hmap : (Nat.digits 10 m).map digitChar = ['0'] := by
      rw [List.reverse_eq_iff] at hd
      simpa using hd
    rcases hdig : Nat.digits 10 m with _ | ⟨d, t⟩
    · rw [hdig] at hmap
      simp at hmap
    · rw [hdig] at hmap
      simp only [List.map_cons, List.cons.injEq] at hmap
      have ht : t = [] := by
        have := hmap.2
        cases t with
        | nil => rfl
        | cons x xs => simp at this
      have hdlt : d < 10 :=
        Nat.digits_lt_base (by norm_num) (by rw [hdig]; simp)
      have hd0 : d = 0 := by
        have : digitChar d = digitChar 0 := by rw [hmap.1]; rfl
        exact digitChar_inj hdlt (by norm_num) this
      have := Nat.ofDigits_digits 10 m
      rw [hdig, ht, hd0] at this
      simp [Nat.ofDigits] at this
      exact h1 this.symm
  · have hd := congrArg String.data h
    simp only at hd
    have hmap : (Nat.digits 10 m).map digitChar = (Nat.digits 10 n).map digitChar :=
      List.reverse_injective hd
    have hdig : Nat.digits 10 m = Nat.digits 10 n :=
      map_digitChar_inj
        (fun d hd' => Nat.digits_lt_base (by norm_num) hd')
        (fun d hd' => Nat.digits_lt_base (by norm_num) hd') hmap
    have := congrArg (Nat.ofDigits 10) hdig
    rwa [Nat.ofDigits_digits, Nat.ofDigits_digits] at this

/-- The underscore never occurs in the decimal rendering of a Go int. -/
theorem underscore_not_mem_intDec (i : Int) : '_' ∉ (intDec i).data := by
  unfold intDec
  split
  · rw [String.data_append]
    intro h
    rcases List.mem_append.mp h with h1 | h2
    · have : ("-" : String).data = ['-'] := rfl
      rw [this] at h1
      simp at h1
    · exact underscore_not_mem_natDec _ h2
  · exact underscore_not_mem_natDec _

/-- Injectivity of the decimal rendering of Go ints. -/
theorem intDec_inj {i j : Int} (h : intDec i = intDec j) : i = j := by
  unfold intDec at h
  have hdash : ("-" : String).data = ['-'] := rfl
  split_ifs at h with hi hj hj
  · have hdata := congrArg String.data h
    rw [String.data_append, String.data_append, hdash] at hdata
    have habs : i.natAbs = j.natAbs := by
      refine natDec_inj (String.ext ?_)
      simpa using hdata
    omega
  · exfalso
    have hdata := congrArg String.data h
    rw [String.data_append, hdash] at hdata
    have : '-' ∈ (natDec j.natAbs).data := by
      rw [← hdata]
      simp
    exact dash_not_mem_natDec _ this
  · exfalso
    have hdata := congrArg String.data h
    rw [String.data_append, hdash] at hdata
    have : '-' ∈ (natDec i.natAbs).data := by
      rw [hdata]
      simp
    exact dash_not_mem_natDec _ this
  · have habs : i.natAbs = j.natAbs := natDec_inj h
    omega

/-- Unique decomposition around a separator character that occurs in neither
left part. -/
theorem append_sep_inj {c : Char} : ∀ {x1 x2 y1 y2 : List Char},
    c ∉ x1 → c ∉ x2 → x1 ++ c :: y1 = x2 ++ c :: y2 → x1 = x2 ∧ y1 = y2
  | [], [], y1, y2, _, _, h => by simpa using h
  | [], b :: t2, y1, y2, _, h2, h => by
    exfalso
    simp only [List.nil_append, List.cons_append, List.cons.injEq] at h
    exact h2 (by simp [← h.1])
  | a :: t1, [], y1, y2, h1, _, h => by
    exfalso
    simp only [List.nil_append, List.cons_append, List.cons.injEq] at h
    exact h1 (by simp [h.1])
  | a :: t1, b :: t2, y1, y2, h1, h2, h => by
    simp only [List.cons_append, List.cons.injEq] at h
    have ht := append_sep_inj (fun hm => h1 (by simp [hm]))
      (fun hm => h2 (by simp [hm])) h.2
    exact ⟨by rw [h.1, ht.1], ht.2⟩

/-- Injectivity of the notify-type key over (channelId, status) pairs. -/
theorem formatNotifyType_inj {c1 s1 c2 s2 : Int}
    (h : formatNotifyType c1 s1 = formatNotifyType c2 s2) : c1 = c2 ∧ s1 = s2 := by
  have hd := congrArg String.data h
  unfold formatNotifyType at hd
  have hu : ("_" : String).data = ['_'] := rfl
  simp only [String.data_append, hu, List.append_assoc, List.singleton_append] at hd
  have hd' := List.append_cancel_left hd
  simp only [List.cons_append, List.cons.injEq, true_and] at hd'
  have hsplit := append_sep_inj (underscore_not_mem_intDec c1)
    (underscore_not_mem_intDec c2) hd'
  exact ⟨intDec_inj (String.ext hsplit.1), intDec_inj (String.ext hsplit.2)⟩

/-- C1: for every channel type and every non-null error flagged skip-retry and
not flagged channel-level, `ShouldDisableChannel` returns false regardless of
the switch, the status code, the normalized code and type, and the message;
and an error flagged both channel-level and skip-retry yields true when the
automatic-disable switch is on, because the channel-level rule is evaluated
first. -/
theorem skip_retry_veto_shoulddisable (cfg : GlobalConfig) (channelType : Int)
    (e : NewAPIError) :
    (e.isSkipRetryErrorFlag = true → e.isChannelErrorFlag = false →
      ShouldDisableChannel cfg channelType (some e) = false) ∧
    (cfg.automaticDisableChannelEnabled = true → e.isChannelErrorFlag = true →
      e.isSkipRetryErrorFlag = true →
      ShouldDisableChannel cfg channelType (some e) = true) := by
  constructor
  · intro hs hc
    simp [ShouldDisableChannel, IsChannelError, IsSkipRetryError, hs, hc]
  · intro ha hc hs
    simp [ShouldDisableChannel, IsChannelError, IsSkipRetryError, ha, hc]

/-- Witness for C1 at concrete inputs: a skip-retry 401 error with listed code
and type is not disabled, while a double-flagged error is. -/
theorem skip_retry_veto_shoulddisable_witness :
    ShouldDisableChannel sampleCfgOn 1 (some sampleSkipRetryErr) = false ∧
    ShouldDisableChannel sampleCfgOn 1 (some sampleBothFlagsErr) = true :=
  ⟨(skip_retry_veto_shoulddisable sampleCfgOn 1 sampleSkipRetryErr).1 rfl rfl,
   (skip_retry_veto_shoulddisable sampleCfgOn 1 sampleBothFlagsErr).2 rfl rfl rfl⟩

/-- C2: `ShouldEnableChannel` is true iff the automatic-enable switch is on,
the error is null and the stored status is `AutoDisabled`; consequently it is
false for every non-null error and for every other status. -/
theorem should_enable_iff (cfg : GlobalConfig) (err : Option NewAPIError)
    (status : Int) :
    (ShouldEnableChannel cfg err status = true ↔
      cfg.automaticEnableChannelEnabled = true ∧ err = none ∧
        status = ChannelStatusAutoDisabled) ∧
    (∀ e : NewAPIError, ShouldEnableChannel cfg (some e) status = false) ∧
    (status ≠ ChannelStatusAutoDisabled →
      ShouldEnableChannel cfg none status = false) := by
  refine ⟨?_, ?_, ?_⟩
  · cases err <;> simp [ShouldEnableChannel]
  · intro e
    simp [ShouldEnableChannel]
  · intro h
    simp [ShouldEnableChannel, h]

/-- Witness for C2 at concrete inputs: with the switch on, a null error and a
stored status of `Enabled` (not `AutoDisabled`) yields false. -/
theorem should_enable_iff_witness :
    ShouldEnableChannel sampleCfgOn none ChannelStatusEnabled = false :=
  (should_enable_iff sampleCfgOn none ChannelStatusEnabled).2.2 (by decide)

/-- C3: with `AutoBan` false, `DisableChannel` performs no state mutation:
its trace contains no store call and no notification hand-off, for every
store, time, channel and reason. -/
theorem autoban_false_disable_pure_log
    (store : Int → String → Int → String → Bool) (now : String)
    (channelError : ChannelError) (reason : String)
    (h : channelError.autoBan = false) :
    (DisableChannel store now channelError reason).all
      (fun eff => !isUpdateEffect eff && !isNotifyEffect eff) = true := by
  simp [DisableChannel, h, isUpdateEffect, isNotifyEffect]

/-- Witness for C3 at concrete inputs: the trace of disabling a channel with
`AutoBan` false holds neither store calls nor notifications. -/
theorem autoban_false_disable_pure_log_witness :
    (DisableChannel sampleStore "2026-01-01 00:00:00" sampleNoBanChannel
        "timeout").all
      (fun eff => !isUpdateEffect eff && !isNotifyEffect eff) = true :=
  autoban_false_disable_pure_log sampleStore "2026-01-01 00:00:00"
    sampleNoBanChannel "timeout" rfl

/-- C4: with the automatic-disable switch on, a 403 error carrying no flag and
matching no code, type or keyword rule disables exactly the Gemini channel
type and no other. -/
theorem forbidden_gemini_only (cfg : GlobalConfig) (channelType : Int)
    (e : NewAPIError)
    (hon : cfg.automaticDisableChannelEnabled = true)
    (hch : e.isChannelErrorFlag = false)
    (hsk : e.isSkipRetryErrorFlag = false)
    (hst : e.statusCode = 403)
    (hcode : disableErrorCodes.contains e.oaiCode = false)
    (htype : disableErrorTypes.contains e.oaiType = false)
    (hkw : AcSearch e.errMessage.toLower cfg.automaticDisableKeywords = false) :
    ShouldDisableChannel cfg channelType (some e) = true ↔
      channelType = ChannelTypeGemini := by
  have hcode' : e.oaiCode ∉ disableErrorCodes := by simpa using hcode
  have htype' : e.oaiType ∉ disableErrorTypes := by simpa using htype
  simp [ShouldDisableChannel, IsChannelError, IsSkipRetryError, hon, hch, hsk,
    hst, hcode', htype', hkw]

/-- Witness for C4 at concrete inputs: the same flagless, ruleless 403 error
disables a Gemini channel and leaves channel type 3 alone. -/
theorem forbidden_gemini_only_witness :
    ShouldDisableChannel sampleCfgOn ChannelTypeGemini (some sampleForbiddenErr) =
      true ∧
    ShouldDisableChannel sampleCfgOn 3 (some sampleForbiddenErr) = false := by
  constructor
  · exact (forbidden_gemini_only sampleCfgOn ChannelTypeGemini sampleForbiddenErr
      rfl rfl rfl rfl (by decide) (by decide) rfl).mpr rfl
  · have h := (forbidden_gemini_only sampleCfgOn 3 sampleForbiddenErr
      rfl rfl rfl rfl (by decide) (by decide) rfl)
    cases hres : ShouldDisableChannel sampleCfgOn 3 (some sampleForbiddenErr)
    · rfl
    · exact absurd (h.mp hres) (by decide)

/-- C5: the delivered content of `SendWebhookNotify` is the left fold of the
single-value substitution over the `Values` sequence: unchanged for zero
values, one substitution for one value, the evolving string fed back as the
template at each step, and the last value applied to the fold of the rest. -/
theorem webhook_content_fold {α : Type} (f : String → α → String) (c : String)
    (v : α) (vs : List α) :
    applyValues f c [] = c ∧
    applyValues f c [v] = f c v ∧
    applyValues f c (v :: vs) = applyValues f (f c v) vs ∧
    applyValues f c (vs ++ [v]) = f (applyValues f c vs) v := by
  refine ⟨rfl, rfl, rfl, ?_⟩
  simp [applyValues]

/-- C6 counterexample: a URL whose host is `example.com` and whose DingTalk
marker sits only in the query string is nevertheless detected as a chat-bot
destination by the source's `isDingTalkWebhook`, refuting host-based,
path-and-query-independent detection. -/
theorem dingtalk_detection_host_counterexample :
    isDingTalkWebhook "https://example.com/notify?src=oapi.dingtalk.com" = true ∧
    hostOf "https://example.com/notify?src=oapi.dingtalk.com" = "example.com" ∧
    isChatBotByHostSpec "https://example.com/notify?src=oapi.dingtalk.com" =
      false := by
  refine ⟨?_, ?_, ?_⟩ <;> decide

/-- C6 amended: the destination is formatted with the chat-bot schema exactly
when one of the DingTalk domain markers occurs as a substring anywhere in the
URL string, including in the path or query. -/
theorem dingtalk_detection_amended (url : String) :
    isDingTalkWebhook url = true ↔
      ("oapi.dingtalk.com".data <:+: url.data ∨
        "api.dingtalk.com".data <:+: url.data) := by
  simp [isDingTalkWebhook, strContains]

/-- C7: with a non-empty secret, the final DingTalk URL is the original URL
with one `timestamp` and one `sign` parameter appended, joined with `&` when
the URL already has a query string and `?` otherwise, where `sign` is the
escaped base64 HMAC of `"{timestamp}\n{secret}"` keyed by the secret and built
from the same millisecond timestamp; with an empty secret the URL is
unchanged. -/
theorem dingtalk_url_signing (hmacSha256Base64 : String → String → String)
    (queryEscape : String → String) (webhookURL secret : String)
    (timestampMs : Int) :
    (secret ≠ "" → strContains webhookURL "?" = true →
      dingTalkFinalURL hmacSha256Base64 queryEscape webhookURL secret
          timestampMs =
        webhookURL ++ "&timestamp=" ++ intDec timestampMs ++ "&sign=" ++
          queryEscape
            (hmacSha256Base64 secret (intDec timestampMs ++ "\n" ++ secret))) ∧
    (secret ≠ "" → strContains webhookURL "?" = false →
      dingTalkFinalURL hmacSha256Base64 queryEscape webhookURL secret
          timestampMs =
        webhookURL ++ "?timestamp=" ++ intDec timestampMs ++ "&sign=" ++
          queryEscape
            (hmacSha256Base64 secret (intDec timestampMs ++ "\n" ++ secret))) ∧
    dingTalkFinalURL hmacSha256Base64 queryEscape webhookURL "" timestampMs =
      webhookURL := by
  refine ⟨?_, ?_, rfl⟩
  · intro hs hq
    simp [dingTalkFinalURL, generateDingTalkSign, hs, hq]
  · intro hs hq
    simp [dingTalkFinalURL, generateDingTalkSign, hs, hq]

/-- Witness for C7 at concrete inputs: a token-bearing DingTalk URL gets the
two parameters appended with `&`, and an empty secret leaves a URL alone. -/
theorem dingtalk_url_signing_witness :
    dingTalkFinalURL sampleHmacBase64 sampleQueryEscape
        "https://oapi.dingtalk.com/robot/send?access_token=t" "sec" 99 =
      "https://oapi.dingtalk.com/robot/send?access_token=t" ++ "&timestamp=" ++
        intDec 99 ++ "&sign=" ++
        sampleQueryEscape (sampleHmacBase64 "sec" (intDec 99 ++ "\n" ++ "sec")) ∧
    dingTalkFinalURL sampleHmacBase64 sampleQueryEscape
        "https://oapi.dingtalk.com/robot/send" "" 99 =
      "https://oapi.dingtalk.com/robot/send" :=
  ⟨(dingtalk_url_signing sampleHmacBase64 sampleQueryEscape
      "https://oapi.dingtalk.com/robot/send?access_token=t" "sec" 99).1
      (by decide) (by decide),
   (dingtalk_url_signing sampleHmacBase64 sampleQueryEscape
      "https://oapi.dingtalk.com/robot/send" "" 99).2.2⟩

/-- C9: the notify-type key builder is deterministic, produces
`"{prefix}_{channelId}_{status}"`, and is injective over (channelId, status)
pairs. -/
theorem notify_key_deterministic_injective (c1 s1 c2 s2 : Int) :
    formatNotifyType c1 s1 =
      NotifyTypeChannelUpdate ++ "_" ++ intDec c1 ++ "_" ++ intDec s1 ∧
    (formatNotifyType c1 s1 = formatNotifyType c2 s2 → c1 = c2 ∧ s1 = s2) :=
  ⟨rfl, formatNotifyType_inj⟩

/-- Witness for C9 at concrete inputs: the keys for channel 5 with status
`AutoDisabled` and status `Enabled` differ. -/
theorem notify_key_deterministic_injective_witness :
    formatNotifyType 5 ChannelStatusAutoDisabled ≠
      formatNotifyType 5 ChannelStatusEnabled :=
  fun h =>
    absurd
      ((notify_key_deterministic_injective 5 ChannelStatusAutoDisabled 5
          ChannelStatusEnabled).2 h).2
      (by decide)

/-- C8: in direct (non-worker) mode, an SSRF rejection makes
`SendWebhookNotify` return the rejection error with a trace holding only the
validation step: no request is built and no network exchange happens. -/
theorem ssrf_reject_no_network {α : Type} (env : WebhookEnv α)
    (webhookURL secret : String) (data : Notify α) (e : String)
    (hw : env.enableWorker = false)
    (hv : env.validateURL (finalWebhookURL env webhookURL secret) = some e) :
    SendWebhookNotify env webhookURL secret data =
      (Except.error ("request reject: " ++ e),
        [SendEffect.validateURL (finalWebhookURL env webhookURL secret)]) ∧
    (SendWebhookNotify env webhookURL secret data).2.all
      (fun eff => !isNetworkEffect eff) = true := by
  have h1 : SendWebhookNotify env webhookURL secret data =
      (Except.error ("request reject: " ++ e),
        [SendEffect.validateURL (finalWebhookURL env webhookURL secret)]) := by
    simp [SendWebhookNotify, hw, hv]
  exact ⟨h1, by rw [h1]; rfl⟩

/-- Witness for C8 at a concrete rejecting environment: the result is the
rejection error and the trace is the single validation step. -/
theorem ssrf_reject_no_network_witness :
    SendWebhookNotify sampleRejectEnv "https://internal.host/hook" ""
        sampleNotifyA =
      (Except.error ("request reject: " ++ "blocked"),
        [SendEffect.validateURL
          (finalWebhookURL sampleRejectEnv "https://internal.host/hook" "")]) :=
  (ssrf_reject_no_network sampleRejectEnv "https://internal.host/hook" ""
    sampleNotifyA "blocked" rfl rfl).1

/-- Helper for C10: when the final URL equals the passed-in URL, every network
exchange in the `SendWebhookNotify` trace targets exactly that URL, in both
delivery modes and all response outcomes. -/
theorem sendTrace_targets_of_final_eq {α : Type} (env : WebhookEnv α)
    (webhookURL secret : String) (data : Notify α)
    (hfin : finalWebhookURL env webhookURL secret = webhookURL) :
    (SendWebhookNotify env webhookURL secret data).2.all
      (effectTargets webhookURL) = true := by
  unfold SendWebhookNotify
  rw [hfin]
  cases henv : env.enableWorker
  · simp only [Bool.false_eq_true, if_false]
    cases hv : env.validateURL webhookURL
    · cases hr : env.httpResponse (mkDirectRequest env webhookURL secret webhookURL
        (webhookPayloadBytes env webhookURL data))
      · simp [hr, effectTargets, mkDirectRequest]
      · dsimp only
        split_ifs <;> simp [effectTargets, mkDirectRequest]
    · simp [effectTargets]
  · simp only [if_true]
    cases hr : env.workerResponse (mkWorkerRequest env webhookURL secret webhookURL
      (webhookPayloadBytes env webhookURL data))
    · simp [hr, effectTargets, mkWorkerRequest]
    · dsimp only
      split_ifs <;> simp [effectTargets, mkWorkerRequest]

/-- Helper for C10: worker-mode headers are independent of the secret outside
the `X-Webhook-Signature` and `Authorization` keys. -/
theorem worker_header_indep_aux {α : Type} (env : WebhookEnv α)
    (webhookURL secret payloadBytes : String) (k : String)
    (hd : isDingTalkWebhook webhookURL = false)
    (hk1 : k ≠ "X-Webhook-Signature") (hk2 : k ≠ "Authorization") :
    lookupHeader k (workerHeaders env webhookURL secret payloadBytes) =
      lookupHeader k (workerHeaders env webhookURL "" payloadBytes) := by
  by_cases hs : secret = ""
  · rw [hs]
  · have hsig : ("X-Webhook-Signature" == k) = false :=
      beq_eq_false_iff_ne.mpr (Ne.symm hk1)
    have hauth : ("Authorization" == k) = false :=
      beq_eq_false_iff_ne.mpr (Ne.symm hk2)
    simp [workerHeaders, lookupHeader, hd, hs, List.find?, hsig, hauth]

/-- Helper for C10: direct-mode headers are independent of the secret outside
the `X-Webhook-Signature` key. -/
theorem direct_header_indep_aux {α : Type} (env : WebhookEnv α)
    (webhookURL secret payloadBytes : String) (k : String)
    (hd : isDingTalkWebhook webhookURL = false)
    (hk1 : k ≠ "X-Webhook-Signature") :
    lookupHeader k (directHeaders env webhookURL secret payloadBytes) =
      lookupHeader k (directHeaders env webhookURL "" payloadBytes) := by
  by_cases hs : secret = ""
  · rw [hs]
  · have hsig : ("X-Webhook-Signature" == k) = false :=
      beq_eq_false_iff_ne.mpr (Ne.symm hk1)
    simp [directHeaders, lookupHeader, hd, hs, List.find?, hsig]

/-- C10: for a non-chat-bot URL, `SendWebhookNotify` never modifies the
destination: the final URL equals the input URL for every secret, both
request builders address exactly that URL, every network exchange in the
trace targets it, and the secret influences the headers only at the
`X-Webhook-Signature` key (plus `Authorization` in worker mode), never any
other header and never the URL. -/
theorem nonchatbot_url_unchanged {α : Type} (env : WebhookEnv α)
    (webhookURL secret payloadBytes : String) (data : Notify α)
    (hd : isDingTalkWebhook webhookURL = false) :
    finalWebhookURL env webhookURL secret = webhookURL ∧
    (mkWorkerRequest env webhookURL secret
        (finalWebhookURL env webhookURL secret) payloadBytes).url = webhookURL ∧
    (mkDirectRequest env webhookURL secret
        (finalWebhookURL env webhookURL secret) payloadBytes).url = webhookURL ∧
    (SendWebhookNotify env webhookURL secret data).2.all
      (effectTargets webhookURL) = true ∧
    (∀ k : String, k ≠ "X-Webhook-Signature" → k ≠ "Authorization" →
      lookupHeader k (workerHeaders env webhookURL secret payloadBytes) =
        lookupHeader k (workerHeaders env webhookURL "" payloadBytes)) ∧
    (∀ k : String, k ≠ "X-Webhook-Signature" →
      lookupHeader k (directHeaders env webhookURL secret payloadBytes) =
        lookupHeader k (directHeaders env webhookURL "" payloadBytes)) := by
  have hfin : finalWebhookURL env webhookURL secret = webhookURL := by
    simp [finalWebhookURL, hd]
  refine ⟨hfin, by rw [hfin]; rfl, by rw [hfin]; rfl,
    sendTrace_targets_of_final_eq env webhookURL secret data hfin,
    fun k hk1 hk2 =>
      worker_header_indep_aux env webhookURL secret payloadBytes k hd hk1 hk2,
    fun k hk1 =>
      direct_header_indep_aux env webhookURL secret payloadBytes k hd hk1⟩

/-- Witness for C10 at concrete inputs: a generic URL is passed through
unchanged and the content-type header does not depend on the secret. -/
theorem nonchatbot_url_unchanged_witness :
    finalWebhookURL sampleFrameEnv "https://example.com/hook" "s" =
      "https://example.com/hook" ∧
    lookupHeader "Content-Type"
        (workerHeaders sampleFrameEnv "https://example.com/hook" "s" "p") =
      lookupHeader "Content-Type"
        (workerHeaders sampleFrameEnv "https://example.com/hook" "" "p") :=
  ⟨(nonchatbot_url_unchanged sampleFrameEnv "https://example.com/hook" "s" "p"
      sampleNotifyB (by decide)).1,
   (nonchatbot_url_unchanged sampleFrameEnv "https://example.com/hook" "s" "p"
      sampleNotifyB (by decide)).2.2.2.2.1 "Content-Type" (by decide) (by decide)⟩
